import Mathlib

/-!
Shallow embedding of `wrapspawner/wrapspawner.py` (jupyterhub/wrapspawner).

The repository provides a delegating proxy (`WrapSpawner`) that lazily
constructs a "child" spawner, plus selector layers (`ProfilesSpawner`,
`DockerProfilesSpawner`, `CustomSpawner`) that map a user-chosen profile key
to the child class and configuration.

Modelling conventions:
* Python dicts are association lists `List (String × PyVal)`; `dict.update`
  and `dict.get` are `dictUpdate` / lookup with default.
* The host-framework base class (`jupyterhub.Spawner`) is out of scope; its
  `get_state` contributes no fields relevant to the proxy, its `load_state` /
  `clear_state` touch no modelled fields.  Child spawner instances are
  modelled abstractly as objects carrying an identity, their class, the
  constructor configuration and an opaque state blob, with the host contract
  `clear_state` (empty the blob), `load_state` (store the blob) and
  `get_state` (return the blob).
* Object identity of child spawners is modelled with a fresh-id counter in
  the proxy state.
* The `directional_link` trait-synchronisation step in `construct_child`
  touches no field modelled here and is omitted.
* Python exceptions are `Except PyErr`; functions that cannot raise are total.
-/

/-- Python values stored in configuration / state dictionaries. -/
inductive PyVal where
  | str (s : String)
  | int (n : Int)
deriving DecidableEq, Repr

/-- A Python dict, as an association list (first binding wins on lookup). -/
abbrev PyDict := List (String × PyVal)

/-- Embeds `d[k] = v`: replace the first binding of `k`, or append a new binding. -/
def dictSet : PyDict → String → PyVal → PyDict
  | [], k, v => [(k, v)]
  | (k', v') :: rest, k, v =>
    if k' = k then (k, v) :: rest else (k', v') :: dictSet rest k v

/-- Embeds `d.update(other)`: set every binding of `other` into `d`, in order. -/
def dictUpdate (d other : PyDict) : PyDict :=
  other.foldl (fun acc kv => dictSet acc kv.1 kv.2) d

/-- Embeds `d.get(k)` as an `Option`. -/
def dictGet (d : PyDict) (k : String) : Option PyVal :=
  (d.find? (fun kv => kv.1 = k)).map (fun kv => kv.2)

/-- Fuel-driven scanner over characters embedding Python's left-to-right
literal-pattern substitution with a replacement budget: replaces the `n`
leftmost non-overlapping occurrences of `pat` by `repl` (the fuel, one
unit per consumed character, makes the recursion structural; callers pass
the source length, which always suffices). -/
def subCountGo (pat repl : List Char) : Nat → Nat → List Char → List Char
  | _, _, [] => []
  | 0, _, l => l
  | fuel + 1, n, c :: rest =>
    if n ≠ 0 ∧ pat ≠ [] ∧ pat.isPrefixOf (c :: rest) then
      repl ++ subCountGo pat repl fuel (n - 1) ((c :: rest).drop pat.length)
    else
      c :: subCountGo pat repl fuel n rest

/-- Embeds `re.sub(pat, repl, s, n)` for a literal pattern and a positive
replacement count `n` (the modelled call site passes `n = 2`). -/
def subCount (pat repl s : String) (n : Nat) : String :=
  String.mk (subCountGo pat.data repl.data s.data.length n s.data)

/-- Embeds Python's `s.replace(pat, repl)` (replace every occurrence). -/
def pyReplaceAll (s pat repl : String) : String :=
  String.mk (subCountGo pat.data repl.data s.data.length (s.data.length + 1) s.data)

/-- Fuel-driven splitter over characters embedding Python's
`s.split(sep)` for a non-empty literal separator. -/
def splitOnGo (pat : List Char) : Nat → List Char → List Char → List (List Char)
  | _, acc, [] => [acc.reverse]
  | 0, acc, l => [acc.reverse ++ l]
  | fuel + 1, acc, c :: rest =>
    if pat ≠ [] ∧ pat.isPrefixOf (c :: rest) then
      acc.reverse :: splitOnGo pat fuel [] ((c :: rest).drop pat.length)
    else
      splitOnGo pat fuel (c :: acc) rest

/-- Embeds Python's `s.split(sep)` for a non-empty separator. -/
def pySplit (s pat : String) : List String :=
  (splitOnGo pat.data s.data.length [] s.data).map String.mk

/-- Python exception kinds raised by the modelled code paths. -/
inductive PyErr where
  | indexError
  | keyError
  | valueError
  | urlError
  | traitError
deriving DecidableEq, Repr

/-- A constructed child spawner object: identity, the class it was built
from, the keyword configuration it was built with, and its own opaque
persisted-state blob (host contract: `load_state` stores the blob,
`get_state` returns it, `clear_state` empties it). -/
structure ChildSpawner where
  id : Nat
  cls : String
  config : PyDict
  state : PyDict
deriving DecidableEq, Repr

/-- The persisted-state blob produced/consumed by `get_state`/`load_state`,
projected onto the keys the proxy reads or writes (`child_conf`,
`child_state`, `profile`).  `none` models an absent key; the host base
class contributes none of these keys. -/
structure StateBlob where
  child_conf : Option PyDict
  child_state : Option PyDict
  profile : Option String
deriving DecidableEq, Repr

/-- The blob returned by the host base class `Spawner.get_state()`:
no proxy-relevant keys. -/
def baseBlob : StateBlob := { child_conf := none, child_state := none, profile := none }

/-- Mutable fields of a `WrapSpawner` instance (`child_class` is the
implementation identifier of the Target Descriptor, `child_config` its
configuration bundle).  `nextId` is the fresh-object counter used to give
constructed children an identity. -/
structure WrapState where
  child_class : String
  child_config : PyDict
  child_state : PyDict
  child_spawner : Option ChildSpawner
  nextId : Nat
deriving DecidableEq, Repr

namespace WrapSpawner

/-- Embeds `WrapSpawner.construct_child` (wrapspawner.py lines 70-95): if no child
exists, instantiate `child_class` with `child_config` as keyword overrides,
clear the new child's state, and replay the cached `child_state` blob into
it if that blob is non-empty; otherwise return the existing child unchanged.
(The `directional_link` loop affects no modelled field.)  Returns the
updated proxy state and the child. -/
def construct_child (w : WrapState) : WrapState × ChildSpawner :=
  match w.child_spawner with
  | some c => (w, c)
  | none =>
    let c0 : ChildSpawner :=
      { id := w.nextId, cls := w.child_class, config := w.child_config, state := [] }
    let c1 := if w.child_state.isEmpty then c0 else { c0 with state := w.child_state }
    ({ w with child_spawner := some c1, nextId := w.nextId + 1 }, c1)

/-- Embeds `WrapSpawner.get_state` (lines 108-113): start from the base blob, store
`child_config` under `child_conf`; if a child exists, snapshot its state
into both the proxy's cached `child_state` field and the blob's
`child_state` key.  Returns the (possibly mutated) proxy state and blob. -/
def get_state (w : WrapState) : WrapState × StateBlob :=
  let blob := { baseBlob with child_conf := some w.child_config }
  match w.child_spawner with
  | some c =>
    ({ w with child_state := c.state }, { blob with child_state := some c.state })
  | none => (w, blob)

/-- Embeds `WrapSpawner.clear_state` (lines 115-121): clear the child's own state
if one exists (the cleared child is then dropped), reset the cached state,
the configuration bundle and the child reference.  `child_class` is not
touched. -/
def clear_state (w : WrapState) : WrapState :=
  { w with child_state := [], child_config := [], child_spawner := none }

/-- Result of `poll`: either the dummy already-completed future made by
`_yield_val` (lines 44-47) carrying its result value, or the live child's
own poll future. -/
inductive PollFuture where
  | completed (value : Option Int)
  | ofChild (c : ChildSpawner)
deriving DecidableEq, Repr

/-- Embeds `WrapSpawner.poll` (lines 137-141): forward to the live child's poll if
one exists, else immediately return a completed future with result `1`.
The proxy state is returned unchanged (no child is constructed). -/
def poll (w : WrapState) : WrapState × PollFuture :=
  match w.child_spawner with
  | some c => (w, PollFuture.ofChild c)
  | none => (w, PollFuture.completed (some 1))

end WrapSpawner

/-- A catalog entry of `ProfilesSpawner.profiles` (lines 160-171): display
name, unique key, spawner class identifier, configuration dict. -/
structure Profile where
  display : String
  key : String
  cls : String
  config : PyDict
deriving DecidableEq, Repr

/-- Mutable fields of a `ProfilesSpawner` instance: the wrapped proxy
fields, the profiles catalog, the selected key `child_profile`, and the
`profile` entry of `user_options` (`user_options.get('profile', "")` is
modelled as `.getD ""`). -/
structure ProfilesState where
  wrap : WrapState
  profiles : List Profile
  child_profile : String
  user_options_profile : Option String
deriving DecidableEq, Repr

namespace ProfilesSpawner

/-- The `for p in self.profiles: if p[1] == profile: ...; break` loop of
`select_profile`: first entry whose key matches. -/
def firstMatch : List Profile → String → Option Profile
  | [], _ => none
  | p :: rest, k => if p.key = k then some p else firstMatch rest k

/-- Embeds `ProfilesSpawner.select_profile` (lines 216-222): set the Target
Descriptor from the first matching profile, or do nothing on no match. -/
def select_profile (ps : ProfilesState) (profile : String) : ProfilesState :=
  match firstMatch ps.profiles profile with
  | some p =>
    { ps with wrap := { ps.wrap with child_class := p.cls, child_config := p.config } }
  | none => ps

/-- Embeds `ProfilesSpawner.construct_child` (lines 224-227): re-read the selected
key from `user_options`, apply the selection, then defer to
`WrapSpawner.construct_child`. -/
def construct_child (ps : ProfilesState) : ProfilesState × ChildSpawner :=
  let ps1 := { ps with child_profile := ps.user_options_profile.getD "" }
  let ps2 := select_profile ps1 ps1.child_profile
  let wc := WrapSpawner.construct_child ps2.wrap
  ({ ps2 with wrap := wc.1 }, wc.2)

/-- Embeds `ProfilesSpawner.load_child_class` (lines 229-234): recover the key from
the blob's `profile` entry (KeyError gives `''`) and re-apply it. -/
def load_child_class (ps : ProfilesState) (state : StateBlob) : ProfilesState :=
  let ps1 := { ps with child_profile := state.profile.getD "" }
  select_profile ps1 ps1.child_profile

/-- Embeds `WrapSpawner.load_state` (lines 101-106) as executed by a
`ProfilesSpawner` instance (dynamic dispatch resolves `load_child_class`
and `construct_child` to the overrides above; the base
`Spawner.load_state` touches no modelled field): recompute the descriptor
from the persisted key, merge the blob's `child_conf` into `child_config`,
cache the blob's `child_state`, then eagerly construct the child. -/
def load_state (ps : ProfilesState) (state : StateBlob) : ProfilesState :=
  let ps1 := load_child_class ps state
  let ps2 := { ps1 with wrap :=
    { ps1.wrap with child_config := dictUpdate ps1.wrap.child_config (state.child_conf.getD []) } }
  let ps3 := { ps2 with wrap := { ps2.wrap with child_state := state.child_state.getD [] } }
  (construct_child ps3).1

/-- Embeds `ProfilesSpawner.get_state` (lines 236-239): the proxy blob plus the
selected key under `profile`. -/
def get_state (ps : ProfilesState) : ProfilesState × StateBlob :=
  let wb := WrapSpawner.get_state ps.wrap
  ({ ps with wrap := wb.1 }, { wb.2 with profile := some ps.child_profile })

/-- Embeds `ProfilesSpawner.clear_state` (lines 241-243): clear the proxy state and
reset the selected key. -/
def clear_state (ps : ProfilesState) : ProfilesState :=
  { ps with wrap := WrapSpawner.clear_state ps.wrap, child_profile := "" }

/-- Assignment of the `profiles` traitlets `List` (lines 160-171): the
declared validation is element typing and `minlen=1`; no duplicate-key
check exists and no diagnostic is logged.  Returns the updated state and
the list of warning diagnostics emitted (always empty); an empty list is a
`TraitError`. -/
def set_profiles (ps : ProfilesState) (newProfiles : List Profile) :
    Except PyErr (ProfilesState × List String) :=
  if newProfiles.length < 1 then Except.error PyErr.traitError
  else Except.ok ({ ps with profiles := newProfiles }, [])

end ProfilesSpawner

namespace ProfilesSpawner

/-- Embeds the default `input_template` (lines 192-200) with `.format`
applied: substitutes `key`, `first` and `display` (the `type` placeholder
does not occur in the default template). -/
def input_fragment (display key first : String) : String :=
  "\n        <option value=\"" ++ key ++ "\" " ++ first ++ ">" ++ display ++ "</option>"

/-- Embeds the default `form_template` (lines 175-185) with `.format`
applied: substitutes the joined option fragments for the placeholder. -/
def form_fragment (text : String) : String :=
  "<label for=\"profile\">Select a job profile:</label>\n        <select class=\"form-control\" name=\"profile\" required autofocus>\n        "
    ++ text
    ++ "\n        </select>\n        <textfield></textfield>\n        "

/-- Embeds `ProfilesSpawner._options_form_default` (lines 204-208) with the
default templates and `first_template = 'selected'`: builds one option
fragment per profile, marking the first as selected.  On an empty profiles
list, `temp_keys[0]` raises an `IndexError`. -/
def options_form_default (profiles : List Profile) : Except PyErr String :=
  match profiles with
  | [] => Except.error PyErr.indexError
  | p0 :: rest =>
    let text := input_fragment p0.display p0.key "selected"
      ++ String.join (rest.map (fun p => input_fragment p.display p.key ""))
    Except.ok (form_fragment text)

end ProfilesSpawner

namespace DockerProfilesSpawner

/-- Response body of the resource-affinity probe as seen after
`json.loads`: the three fields the code reads, each `none` when the key is
absent from the decoded object. -/
structure NvidiaResp where
  volumes : Option (List String)
  volumeDriver : Option String
  devices : Option (List String)
deriving DecidableEq, Repr

/-- Outcome of `urllib.request.urlopen` + `read` + `json.loads` on the
probe endpoint: the request raised `URLError`, or a body was received and
decoding either failed (`none`, a `ValueError` from `json.loads`) or
produced an object. -/
inductive ProbeOutcome where
  | urlError
  | response (parsed : Option NvidiaResp)
deriving DecidableEq, Repr

/-- Enrichment bundle returned by `_nvidia_args`: the empty dict `{}` or
the three-key dict built from the probe response. -/
inductive NvidiaEnrichment where
  | empty
  | args (read_only_volumes : List (String × String)) (volume_driver : String)
      (devices : List String)
deriving DecidableEq, Repr

/-- Embeds the dict comprehension
`{vol.split(':')[0]: vol.split(':')[1] for vol in args['Volumes']}`
(line 279): a volume string without a second `:`-separated field raises an
`IndexError`. -/
def splitVolumes : List String → Except PyErr (List (String × String))
  | [] => Except.ok []
  | vol :: rest =>
    let parts := pySplit vol ":"
    match parts[1]? with
    | none => Except.error PyErr.indexError
    | some second =>
      match splitVolumes rest with
      | Except.error e => Except.error e
      | Except.ok tail => Except.ok ((parts.headD "", second) :: tail)

/-- Embeds `DockerProfilesSpawner._nvidia_args` (lines 273-284).  Only
`urllib.error.URLError` is caught (returning `{}`); a `ValueError` from
`json.loads` on a malformed body, a `KeyError` from a missing field, or an
`IndexError` from a malformed volume string propagates to the caller. -/
def _nvidia_args (probe : ProbeOutcome) : Except PyErr NvidiaEnrichment :=
  match probe with
  | ProbeOutcome.urlError => Except.ok NvidiaEnrichment.empty
  | ProbeOutcome.response none => Except.error PyErr.valueError
  | ProbeOutcome.response (some args) =>
    match args.volumes with
    | none => Except.error PyErr.keyError
    | some vols =>
      match splitVolumes vols with
      | Except.error e => Except.error e
      | Except.ok rov =>
        match args.volumeDriver with
        | none => Except.error PyErr.keyError
        | some vd =>
          match args.devices with
          | none => Except.error PyErr.keyError
          | some devs => Except.ok (NvidiaEnrichment.args rov vd devs)

/-- Embeds the `DockerProfilesSpawner.options_form` property (lines
308-313), whose body is identical to
`ProfilesSpawner._options_form_default` (no length guard, no fallback):
`temp_keys[0]` raises an `IndexError` when the dynamic catalog
(`default_profiles + _docker_profiles()`) is empty. -/
def options_form (profiles : List Profile) : Except PyErr String :=
  match profiles with
  | [] => Except.error PyErr.indexError
  | p0 :: rest =>
    let text := ProfilesSpawner.input_fragment p0.display p0.key "selected"
      ++ String.join (rest.map (fun p => ProfilesSpawner.input_fragment p.display p.key ""))
    Except.ok (ProfilesSpawner.form_fragment text)

end DockerProfilesSpawner

namespace CustomSpawner

/-- A `CustomSpawner` profile tuple (lines 327-338): display name, key,
spawner class identifier, config dict, free-text batch-script payload. -/
structure CProfile where
  display : String
  key : String
  cls : String
  config : PyDict
  payload : String
deriving DecidableEq, Repr

/-- A file found in a profile directory, as the loader observes it:
whether `open` succeeds, and the result of `readlines()` (each element one
line; `f.read()` after `seek(0)` is their concatenation). -/
structure PFile where
  readable : Bool
  lines : List String
deriving DecidableEq, Repr

/-- The fixed config dict appended for every loaded profile (line 469). -/
def customConfig : PyDict :=
  [("req_nprocs", PyVal.str "1"), ("req_partition", PyVal.str "compute"),
   ("req_runtime", PyVal.str "24:00:00")]

/-- The display label of a loaded profile (lines 464-466): the prefix plus
the file's second line, with all newlines removed, then
`re.sub("#JUPYTER", "", option, re.IGNORECASE)` — whose fourth positional
argument is `count`, so `re.IGNORECASE (= 2)` acts as a replacement count
limit of 2 and the match stays case-sensitive. -/
def profileLabel (pfx line1 : String) : String :=
  subCount "#JUPYTER" "" (pyReplaceAll (pfx ++ line1) "\n" "") 2

/-- The loop body of `CustomSpawner._load_profiles` (lines 454-472).  The
single `try` wraps the whole loop, so the first unreadable file (`open`
raises) or file with fewer than two lines (`lines[1]` raises `IndexError`)
makes the `except` return the entries accumulated so far; later files are
not visited.  `count` is the number of files already iterated. -/
def load_profiles_go (pfx spawnerClass : String) :
    List PFile → Nat → List CProfile → List CProfile
  | [], _, acc => acc
  | f :: rest, count, acc =>
    if f.readable then
      match f.lines[1]? with
      | some line1 =>
        load_profiles_go pfx spawnerClass rest (count + 1)
          (acc ++ [{ display := profileLabel pfx line1,
                     key := pfx ++ toString (count + 1),
                     cls := "batchspawner." ++ spawnerClass,
                     config := customConfig,
                     payload := String.join f.lines }])
      | none => acc
    else acc

/-- Embeds `CustomSpawner._load_profiles` (lines 451-473): `listing` is the
result of `os.listdir` (`none` when it raises, in which case the `except`
returns the empty accumulator). -/
def _load_profiles (listing : Option (List PFile)) (pfx spawnerClass : String) :
    List CProfile :=
  match listing with
  | none => []
  | some files => load_profiles_go pfx spawnerClass files 0 []

/-- Embeds `CustomSpawner.empty_form_template` (lines 342-353), literal
braces written as escapes. -/
def empty_form_template : String :=
  "\n    No batch profiles available.\n     <script type=\"application/javascript\">\n         window.onload = function()\x7b\n             var form = document.getElementById(\"spawn_form\");\n             var elements = form.elements;\n             for (var i = 0, len = elements.length; i < len; ++i) \x7b\n                 elements[i].disabled = true\n             \x7d\n         \x7d\n</script>  \n     "

/-- Embeds the default `CustomSpawner.input_template` (lines 377-385) with
`.format` applied (`id` is the profile key). -/
def input_fragment (display key first : String) : String :=
  "\n        <option id=\"" ++ key ++ "\" value=\"" ++ key ++ "\" " ++ first ++ ">"
    ++ display ++ "</option>"

/-- Embeds the default `CustomSpawner.form_template` (lines 355-370) with
`.format` applied. -/
def form_fragment (text batchCommand batchCommands selectHandler : String) : String :=
  "\n         <script type=\"application/javascript\">\n         " ++ batchCommands
    ++ "\n         " ++ selectHandler
    ++ "\n         </script>\n        <label for=\"profile\">Select a job profile:</label>\n        <select onchange = \"profile_selected()\" id = \"profile_selector\" class=\"form-control\" name=\"profile\" required autofocus>\n        "
    ++ text
    ++ "\n        </select>\n        <textarea style =\"height: 400px;\"class=\"form-control\" id=\"batch_command\" name=\"batch_command\">"
    ++ batchCommand ++ "</textarea>\n        "

/-- The fixed `select_handler` script (lines 420-424), literal braces
written as escapes. -/
def select_handler : String :=
  "function profile_selected()\x7b\n            var select = document.getElementById(\"profile_selector\"); \n            var batch_command_id = select[select.selectedIndex].id;\n            document.getElementById(\"batch_command\").value = batch_commands[batch_command_id];\n            \x7d"

/-- Embeds building the `batch_commands` dict (lines 414-417): key to
payload, later duplicate keys overriding in place. -/
def strDictSet : List (String × String) → String → String → List (String × String)
  | [], k, v => [(k, v)]
  | (k', v') :: rest, k, v =>
    if k' = k then (k, v) :: rest else (k', v') :: strDictSet rest k v

/-- Embeds `json.dumps` on a string-to-string dict with default separators
(string escaping is elided: modelled inputs contain no characters that
JSON would escape). -/
def jsonDumps (d : List (String × String)) : String :=
  "\x7b" ++ String.intercalate ", "
    (d.map (fun kv => "\"" ++ kv.1 ++ "\": \"" ++ kv.2 ++ "\"")) ++ "\x7d"

/-- Embeds `CustomSpawner._options_form_default` (lines 407-429) after the
filesystem reload, taking the resulting profiles list: with at least one
profile, renders the selector with the first profile selected and its
payload as the initial batch command; with an empty catalog, returns the
`empty_form_template` fallback (and does not raise). -/
def options_form_default (profiles : List CProfile) : String :=
  match profiles with
  | [] => empty_form_template
  | p0 :: rest =>
    let text := input_fragment p0.display p0.key "selected"
      ++ String.join (rest.map (fun p => input_fragment p.display p.key ""))
    let batchCommand := p0.payload
    let batchCommands := (p0 :: rest).foldl
      (fun acc p => strDictSet acc p.key p.payload) []
    let batchCommandsText := "var batch_commands = " ++ jsonDumps batchCommands
    form_fragment text batchCommand batchCommandsText select_handler

end CustomSpawner

/-! Concrete fixtures used by witnesses and counterexamples. -/

/-- The default profile of `ProfilesSpawner.profiles` (lines 162-163). -/
def pLocal : Profile :=
  { display := "Local Notebook Server", key := "local", cls := "LocalProcessSpawner",
    config := [("start_timeout", PyVal.int 15), ("http_timeout", PyVal.int 10)] }

/-- A second catalog entry with a distinct key. -/
def pGpu : Profile :=
  { display := "GPU Server", key := "gpu", cls := "DockerSpawner",
    config := [("image", PyVal.str "gpu-image")] }

/-- A third catalog entry that repeats the key of `pLocal` with a different
class and config. -/
def pLocal2 : Profile :=
  { display := "Local Again", key := "local", cls := "SystemUserSpawner",
    config := [("start_timeout", PyVal.int 30)] }

/-- A catalog keyed `["local", "gpu", "local"]`. -/
def catDup : List Profile := [pLocal, pGpu, pLocal2]

/-- A proxy with no live child. -/
def wNoChild : WrapState :=
  { child_class := "LocalProcessSpawner", child_config := [], child_state := [],
    child_spawner := none, nextId := 0 }

/-- A live child spawner tracking a running process. -/
def childLive : ChildSpawner :=
  { id := 0, cls := "LocalProcessSpawner", config := pLocal.config,
    state := [("pid", PyVal.int 42)] }

/-- A proxy whose live child is `childLive`. -/
def wLive : WrapState :=
  { child_class := "LocalProcessSpawner", child_config := pLocal.config,
    child_state := [], child_spawner := some childLive, nextId := 1 }

/-- A `ProfilesSpawner` with the profile `local` selected and a live child. -/
def psLive : ProfilesState :=
  { wrap := wLive, profiles := [pLocal, pGpu], child_profile := "local",
    user_options_profile := some "local" }

/-- A `ProfilesSpawner` with no live child and no selection. -/
def ps0 : ProfilesState :=
  { wrap := wNoChild, profiles := [pLocal], child_profile := "",
    user_options_profile := none }

/-- A well-formed profile file (label on the second line). -/
def fGood1 : CustomSpawner.PFile :=
  { readable := true,
    lines := ["#!/bin/bash\n", "#JUPYTER Compute profile\n", "srun python\n"] }

/-- A malformed profile file: only one line, so `lines[1]` raises. -/
def fBad : CustomSpawner.PFile :=
  { readable := true, lines := ["#!/bin/bash\n"] }

/-- A second well-formed profile file, listed after the malformed one. -/
def fGood2 : CustomSpawner.PFile :=
  { readable := true,
    lines := ["#!/bin/bash\n", "GPU profile\n", "srun --gpus=1 python\n"] }

/-- A probe response decoding to an object that lacks the `Volumes` key. -/
def respMissingVolumes : DockerProfilesSpawner.NvidiaResp :=
  { volumes := none, volumeDriver := some "nvidia-docker",
    devices := some ["/dev/nvidia0"] }

/-- A complete probe response. -/
def respFull : DockerProfilesSpawner.NvidiaResp :=
  { volumes := some ["/usr/local/nvidia:/usr/local/nvidia"],
    volumeDriver := some "nvidia-docker", devices := some ["/dev/nvidia0"] }

/-- An arbitrary persisted-state blob. -/
def blobEmpty : StateBlob := { child_conf := none, child_state := none, profile := none }

/-- The childless fixture carrying the duplicate-key catalog. -/
def psDup : ProfilesState :=
  { wrap := wNoChild, profiles := catDup, child_profile := "",
    user_options_profile := none }

/-- A copy of a proxy state with the Target Descriptor set to a profile,
as `select_profile` installs it. -/
def withDescriptor (ps : ProfilesState) (p : Profile) : ProfilesState :=
  { ps with wrap := { ps.wrap with child_class := p.cls, child_config := p.config } }

/-! Helper lemmas (shared, not tied to a single claim). -/

/-- When no profile key matches, the first-match search fails. -/
theorem firstMatch_eq_none {l : List Profile} {k : String}
    (h : ∀ p ∈ l, p.key ≠ k) : ProfilesSpawner.firstMatch l k = none := by
  induction l with
  | nil => rfl
  | cons p rest ih =>
    have hp := h p (by simp)
    simp only [ProfilesSpawner.firstMatch, if_neg hp]
    exact ih (fun q hq => h q (by simp [hq]))

/-- The first-match search only inspects the catalog, and `select_profile`
only rewrites the wrapped `child_class` and `child_config`. -/
theorem select_profile_frame (ps : ProfilesState) (k : String) :
    (ProfilesSpawner.select_profile ps k).wrap.child_spawner = ps.wrap.child_spawner ∧
    (ProfilesSpawner.select_profile ps k).wrap.child_state = ps.wrap.child_state ∧
    (ProfilesSpawner.select_profile ps k).wrap.nextId = ps.wrap.nextId ∧
    (ProfilesSpawner.select_profile ps k).profiles = ps.profiles ∧
    (ProfilesSpawner.select_profile ps k).child_profile = ps.child_profile ∧
    (ProfilesSpawner.select_profile ps k).user_options_profile = ps.user_options_profile := by
  unfold ProfilesSpawner.select_profile
  cases ProfilesSpawner.firstMatch ps.profiles k <;> simp

/-! Theorems settling the claims. -/

/-- C1: for every `WrapSpawner` proxy, `construct_child` is idempotent —
a second call returns exactly the first call's state and child — and with
a live child the call is a no-op returning the existing child. -/
theorem c1_construct_child_idempotent :
    (∀ w : WrapState,
      WrapSpawner.construct_child (WrapSpawner.construct_child w).1 =
        WrapSpawner.construct_child w) ∧
    (∀ (w : WrapState) (c : ChildSpawner), w.child_spawner = some c →
      WrapSpawner.construct_child w = (w, c)) := by
  constructor
  · intro w
    cases h : w.child_spawner with
    | some c => simp [WrapSpawner.construct_child, h]
    | none => simp [WrapSpawner.construct_child, h]
  · intro w c h
    simp [WrapSpawner.construct_child, h]

/-- Witness for C1 at the live-child fixture. -/
theorem c1_construct_child_idempotent_witness :
    WrapSpawner.construct_child wLive = (wLive, childLive) :=
  c1_construct_child_idempotent.2 wLive childLive rfl

/-- C3: selecting a key matching no profile leaves the state — in
particular the Target Descriptor `(child_class, child_config)` — entirely
unchanged, and cannot raise (`select_profile` is total). -/
theorem c3_select_profile_unknown_noop :
    ∀ (ps : ProfilesState) (k : String), (∀ p ∈ ps.profiles, p.key ≠ k) →
      ProfilesSpawner.select_profile ps k = ps := by
  intro ps k h
  simp [ProfilesSpawner.select_profile, firstMatch_eq_none h]

/-- Witness for C3: the key `cloud` matches no profile of `psLive`. -/
theorem c3_select_profile_unknown_noop_witness :
    ProfilesSpawner.select_profile psLive "cloud" = psLive :=
  c3_select_profile_unknown_noop psLive "cloud" (by decide)

/-- C7: polling a proxy with no live child immediately returns the dummy
already-completed future carrying the non-`none` exit status `1`, leaving
the proxy state untouched (no child is constructed). -/
theorem c7_poll_without_child :
    ∀ w : WrapState, w.child_spawner = none →
      WrapSpawner.poll w = (w, WrapSpawner.PollFuture.completed (some 1)) ∧
      (some (1 : Int)).isSome = true := by
  intro w h
  simp [WrapSpawner.poll, h]

/-- Witness for C7 at the childless fixture. -/
theorem c7_poll_without_child_witness :
    WrapSpawner.poll wNoChild = (wNoChild, WrapSpawner.PollFuture.completed (some 1)) :=
  (c7_poll_without_child wNoChild rfl).1

/-- C10: with a live child, `get_state` overwrites the proxy's cached
`child_state` with the child's current snapshot and returns it in the
blob; with no child, the proxy state is unchanged and the blob carries no
`child_state` entry. -/
theorem c10_get_state_side_effect :
    ∀ w : WrapState,
      (∀ c : ChildSpawner, w.child_spawner = some c →
        WrapSpawner.get_state w =
          ({ w with child_state := c.state },
           { child_conf := some w.child_config, child_state := some c.state,
             profile := none })) ∧
      (w.child_spawner = none →
        WrapSpawner.get_state w =
          (w, { child_conf := some w.child_config, child_state := none,
                profile := none })) := by
  intro w
  constructor
  · intro c h
    simp [WrapSpawner.get_state, baseBlob, h]
  · intro h
    simp [WrapSpawner.get_state, baseBlob, h]

/-- Witness for C10 at the live-child and childless fixtures. -/
theorem c10_get_state_side_effect_witness :
    WrapSpawner.get_state wLive =
      ({ wLive with child_state := childLive.state },
       { child_conf := some wLive.child_config, child_state := some childLive.state,
         profile := none }) ∧
    WrapSpawner.get_state wNoChild =
      (wNoChild, { child_conf := some wNoChild.child_config, child_state := none,
                   profile := none }) :=
  ⟨(c10_get_state_side_effect wLive).1 childLive rfl,
   (c10_get_state_side_effect wNoChild).2 rfl⟩


/-- C4 counterexample: `psLive` holds a live child under the `local`
profile; calling `select_profile "gpu"` changes the Target Descriptor
(`child_class` and `child_config`) while the very same live child object
remains attached — no `clear_state` was required, refuting the claim that
the descriptor never silently changes while a child exists. -/
theorem c4_counterexample :
    (ProfilesSpawner.select_profile psLive "gpu").wrap.child_spawner =
        some childLive ∧
    psLive.wrap.child_spawner = some childLive ∧
    (ProfilesSpawner.select_profile psLive "gpu").wrap.child_config ≠
        psLive.wrap.child_config ∧
    (ProfilesSpawner.select_profile psLive "gpu").wrap.child_class ≠
        psLive.wrap.child_class := by
  refine ⟨?_, rfl, ?_, ?_⟩ <;> decide

/-- C4 amended: while a live child exists, every operation other than
`clear_state` preserves that same child object (`construct_child` is then
a no-op on it, `get_state` and `load_state` keep it, `select_profile` may
rewrite the descriptor under it without reconstructing it), and
`clear_state` alone drops the child reference, resetting the cached child
state and `child_config` while `child_class` retains its last value. -/
theorem c4_amended_child_preservation :
    ∀ (ps : ProfilesState) (c : ChildSpawner) (k : String) (blob : StateBlob),
      ps.wrap.child_spawner = some c →
      (ProfilesSpawner.select_profile ps k).wrap.child_spawner = some c ∧
      (ProfilesSpawner.construct_child ps).1.wrap.child_spawner = some c ∧
      (ProfilesSpawner.construct_child ps).2 = c ∧
      (ProfilesSpawner.get_state ps).1.wrap.child_spawner = some c ∧
      (ProfilesSpawner.load_state ps blob).wrap.child_spawner = some c ∧
      (ProfilesSpawner.clear_state ps).wrap.child_spawner = none ∧
      (ProfilesSpawner.clear_state ps).wrap.child_state = [] ∧
      (ProfilesSpawner.clear_state ps).wrap.child_config = [] ∧
      (ProfilesSpawner.clear_state ps).wrap.child_class = ps.wrap.child_class := by
  intro ps c k blob h
  have hsel : ∀ (q : ProfilesState) (s : String),
      q.wrap.child_spawner = some c →
      (ProfilesSpawner.select_profile q s).wrap.child_spawner = some c := by
    intro q s hq
    rw [(select_profile_frame q s).1, hq]
  have hcon : ∀ q : ProfilesState,
      q.wrap.child_spawner = some c →
      (ProfilesSpawner.construct_child q).1.wrap.child_spawner = some c ∧
      (ProfilesSpawner.construct_child q).2 = c := by
    intro q hq
    unfold ProfilesSpawner.construct_child
    have h2 := hsel { q with child_profile := q.user_options_profile.getD "" }
      (q.user_options_profile.getD "") hq
    simp [WrapSpawner.construct_child, h2]
  refine ⟨hsel ps k h, (hcon ps h).1, (hcon ps h).2, ?_, ?_, rfl, rfl, rfl, rfl⟩
  · simp [ProfilesSpawner.get_state, WrapSpawner.get_state, h]
  · unfold ProfilesSpawner.load_state ProfilesSpawner.load_child_class
    apply (hcon _ ?_).1
    have h3 := hsel { ps with child_profile := blob.profile.getD "" }
      (blob.profile.getD "") h
    simp [h3]

/-- Witness for C4 amended at the live-child fixture. -/
theorem c4_amended_child_preservation_witness :
    (ProfilesSpawner.select_profile psLive "gpu").wrap.child_spawner =
        some childLive ∧
    (ProfilesSpawner.construct_child psLive).1.wrap.child_spawner =
        some childLive ∧
    (ProfilesSpawner.construct_child psLive).2 = childLive ∧
    (ProfilesSpawner.get_state psLive).1.wrap.child_spawner = some childLive ∧
    (ProfilesSpawner.load_state psLive blobEmpty).wrap.child_spawner =
        some childLive ∧
    (ProfilesSpawner.clear_state psLive).wrap.child_spawner = none ∧
    (ProfilesSpawner.clear_state psLive).wrap.child_state = [] ∧
    (ProfilesSpawner.clear_state psLive).wrap.child_config = [] ∧
    (ProfilesSpawner.clear_state psLive).wrap.child_class =
        psLive.wrap.child_class :=
  c4_amended_child_preservation psLive childLive "gpu" blobEmpty rfl

/-- C5 counterexample: assigning the catalog keyed
`["local", "gpu", "local"]` — whose third entry genuinely repeats the
first entry's key with a different class — succeeds with an empty
diagnostics list: the code performs no duplicate-key detection and logs
no warning, refuting the claim that the duplicate is reported. -/
theorem c5_counterexample :
    ProfilesSpawner.set_profiles ps0 catDup =
      Except.ok (psDup, ([] : List String)) ∧
    pLocal2.key = pLocal.key ∧ pLocal2 ≠ pLocal := by
  refine ⟨rfl, rfl, ?_⟩
  decide

/-- C5 amended: catalog construction performs no duplicate-key check and
emits no diagnostic (its only validation is the `minlen=1` bound), while
`select_profile` of a key resolves to the first matching entry — so on
the catalog keyed `["local", "gpu", "local"]`, selecting `local` installs
the first entry's class and config. -/
theorem c5_amended_no_diagnostic_first_match :
    (∀ (ps : ProfilesState) (cat : List Profile), 1 ≤ cat.length →
      ProfilesSpawner.set_profiles ps cat =
        Except.ok ({ ps with profiles := cat }, ([] : List String))) ∧
    (∀ (ps : ProfilesState) (k : String) (p : Profile),
      ProfilesSpawner.firstMatch ps.profiles k = some p →
      ProfilesSpawner.select_profile ps k = withDescriptor ps p) ∧
    ProfilesSpawner.select_profile psDup "local" = withDescriptor psDup pLocal := by
  refine ⟨?_, ?_, ?_⟩
  · intro ps cat h
    simp [ProfilesSpawner.set_profiles, Nat.not_lt.mpr h]
  · intro ps k p h
    simp [ProfilesSpawner.select_profile, withDescriptor, h]
  · decide

/-- Witness for C5 amended at the duplicate-key catalog. -/
theorem c5_amended_no_diagnostic_first_match_witness :
    ProfilesSpawner.set_profiles ps0 catDup =
      Except.ok ({ ps0 with profiles := catDup }, ([] : List String)) ∧
    ProfilesSpawner.select_profile psDup "local" = withDescriptor psDup pLocal :=
  ⟨c5_amended_no_diagnostic_first_match.1 ps0 catDup (by decide),
   c5_amended_no_diagnostic_first_match.2.1 psDup "local" pLocal (by decide)⟩

/-- C2: for a `ProfilesSpawner` with profile `k` selected (the selection
recorded in `child_profile` and `user_options`, the descriptor's bundle
being the matched profile's config) and a live child, the sequence
`get_state` → `clear_state` → `load_state` with the saved blob rebuilds
the Target Descriptor from the persisted profile key, constructs a fresh
child of that class and config, replays the cached child-state sub-blob
into it, and loses none of the persisted fields: a second `get_state`
returns the identical blob. -/
theorem c2_state_round_trip :
    ∀ (ps : ProfilesState) (c : ChildSpawner) (k : String) (p : Profile),
      ps.wrap.child_spawner = some c →
      ps.child_profile = k →
      ps.user_options_profile = some k →
      ProfilesSpawner.firstMatch ps.profiles k = some p →
      ps.wrap.child_config = p.config →
      (let gs := ProfilesSpawner.get_state ps
       let ps3 := ProfilesSpawner.load_state (ProfilesSpawner.clear_state gs.1) gs.2
       ps3.wrap.child_class = p.cls ∧
       ps3.wrap.child_config = p.config ∧
       ps3.child_profile = k ∧
       (∃ c2, ps3.wrap.child_spawner = some c2 ∧ c2.state = c.state ∧
         c2.cls = p.cls ∧ c2.config = p.config) ∧
       (ProfilesSpawner.get_state ps3).2 = gs.2) := by
  intro ps c k p h1 h2 h3 h4 h5
  subst h2
  simp only [ProfilesSpawner.get_state, WrapSpawner.get_state,
    ProfilesSpawner.clear_state, WrapSpawner.clear_state,
    ProfilesSpawner.load_state, ProfilesSpawner.load_child_class,
    ProfilesSpawner.select_profile, ProfilesSpawner.construct_child,
    WrapSpawner.construct_child, baseBlob, h1, h3, h4, h5, Option.getD_some]
  cases hcs : c.state with
  | nil => simp [hcs]
  | cons a t => simp [hcs]

/-- Witness for C2 at the live-child fixture with the `local` profile. -/
theorem c2_state_round_trip_witness :
    (let gs := ProfilesSpawner.get_state psLive
     let ps3 := ProfilesSpawner.load_state (ProfilesSpawner.clear_state gs.1) gs.2
     ps3.wrap.child_class = pLocal.cls ∧
     ps3.wrap.child_config = pLocal.config ∧
     ps3.child_profile = "local" ∧
     (∃ c2, ps3.wrap.child_spawner = some c2 ∧ c2.state = childLive.state ∧
       c2.cls = pLocal.cls ∧ c2.config = pLocal.config) ∧
     (ProfilesSpawner.get_state ps3).2 = gs.2) :=
  c2_state_round_trip psLive childLive "local" pLocal rfl rfl rfl (by decide) rfl

/-- The loader loop ignores everything after the first failing file: with
an all-well-formed prefix and a malformed file next, the loop returns
exactly what it returns on the prefix alone, for any counter and
accumulator. -/
theorem load_profiles_go_stops (pfx cls : String) (good : List CustomSpawner.PFile)
    (bad : CustomSpawner.PFile) (rest : List CustomSpawner.PFile)
    (hg : ∀ f ∈ good, f.readable = true ∧ (f.lines[1]?).isSome = true)
    (hb : bad.readable = false ∨ bad.lines[1]? = none) :
    ∀ (n : Nat) (acc : List CustomSpawner.CProfile),
      CustomSpawner.load_profiles_go pfx cls (good ++ bad :: rest) n acc =
        CustomSpawner.load_profiles_go pfx cls good n acc := by
  induction good with
  | nil =>
    intro n acc
    cases hb with
    | inl h =>
      simp [CustomSpawner.load_profiles_go, h]
    | inr h =>
      by_cases hr : bad.readable = true
      · simp [CustomSpawner.load_profiles_go, h, hr]
      · simp [CustomSpawner.load_profiles_go, hr]
  | cons f gs ih =>
    intro n acc
    obtain ⟨hr, hl⟩ := hg f (by simp)
    obtain ⟨l1, hl1⟩ := Option.isSome_iff_exists.mp hl
    simp only [List.cons_append, CustomSpawner.load_profiles_go, hr, if_true, hl1]
    exact ih (fun q hq => hg q (by simp [hq])) _ _

/-- C6 counterexample: scanning the listing `[fGood1, fBad, fGood2]` —
where `fBad` is malformed (no second line) but `fGood2` after it is
well-formed — yields only the entry for `fGood1`: the scan aborts at the
first malformed file instead of skipping it individually, so no entry is
produced for the well-formed `fGood2`, refuting the claim. -/
theorem c6_counterexample :
    (fGood2.readable = true ∧ (fGood2.lines[1]?).isSome = true) ∧
    CustomSpawner._load_profiles (some [fGood1, fBad, fGood2]) "System:" "SlurmSpawner" =
      [{ display := "System: Compute profile", key := "System:1",
         cls := "batchspawner.SlurmSpawner", config := CustomSpawner.customConfig,
         payload := "#!/bin/bash\n#JUPYTER Compute profile\nsrun python\n" }] := by
  constructor
  · decide
  · rfl

/-- C6 amended: the single `try` of `_load_profiles` wraps the whole
directory loop, so the first malformed or unreadable file ends the scan —
the loader returns exactly the entries of the well-formed files preceding
it (and it never raises, being total); files after the first malformed one
are dropped. -/
theorem c6_amended_scan_aborts :
    ∀ (good : List CustomSpawner.PFile) (bad : CustomSpawner.PFile)
      (rest : List CustomSpawner.PFile) (pfx cls : String),
      (∀ f ∈ good, f.readable = true ∧ (f.lines[1]?).isSome = true) →
      (bad.readable = false ∨ bad.lines[1]? = none) →
      CustomSpawner._load_profiles (some (good ++ bad :: rest)) pfx cls =
        CustomSpawner._load_profiles (some good) pfx cls := by
  intro good bad rest pfx cls hg hb
  simp only [CustomSpawner._load_profiles]
  exact load_profiles_go_stops pfx cls good bad rest hg hb 0 []

/-- Witness for C6 amended at the three-file listing. -/
theorem c6_amended_scan_aborts_witness :
    CustomSpawner._load_profiles (some [fGood1, fBad, fGood2]) "System:" "SlurmSpawner" =
      CustomSpawner._load_profiles (some [fGood1]) "System:" "SlurmSpawner" :=
  c6_amended_scan_aborts [fGood1] fBad [fGood2] "System:" "SlurmSpawner"
    (by decide) (by decide)

/-- C8 counterexample: `DockerProfilesSpawner.options_form` on an empty
catalog raises an `IndexError` (`temp_keys[0]` on an empty list) instead
of producing a fallback fragment, refuting the claim for this selector. -/
theorem c8_counterexample :
    DockerProfilesSpawner.options_form [] = Except.error PyErr.indexError := rfl

/-- C8 amended: only `CustomSpawner` renders the fallback
"nothing available" fragment on an empty catalog without raising;
`DockerProfilesSpawner.options_form` and
`ProfilesSpawner._options_form_default` raise `IndexError` on an empty
catalog. -/
theorem c8_amended_fallback_only_custom :
    CustomSpawner.options_form_default [] = CustomSpawner.empty_form_template ∧
    DockerProfilesSpawner.options_form [] = Except.error PyErr.indexError ∧
    ProfilesSpawner.options_form_default [] = Except.error PyErr.indexError :=
  ⟨rfl, rfl, rfl⟩

/-- C9 counterexample: a probe whose body fails to decode raises an
uncaught `ValueError` from `json.loads`, and a decoded body lacking the
`Volumes` key raises an uncaught `KeyError` — neither is swallowed into
the empty enrichment, refuting the claim that every probe failure is
swallowed. -/
theorem c9_counterexample :
    DockerProfilesSpawner._nvidia_args
        (DockerProfilesSpawner.ProbeOutcome.response none) =
      Except.error PyErr.valueError ∧
    DockerProfilesSpawner._nvidia_args
        (DockerProfilesSpawner.ProbeOutcome.response (some respMissingVolumes)) =
      Except.error PyErr.keyError :=
  ⟨rfl, rfl⟩

/-- C9 amended: only the unreachable-endpoint failure (`URLError`) is
swallowed, degrading to the empty enrichment; a malformed response body
(`ValueError`) or a missing response field (`KeyError`) propagates
uncaught out of `_nvidia_args` and aborts catalog listing, while a
complete response yields the three-key enrichment bundle. -/
theorem c9_amended_only_urlerror_swallowed :
    DockerProfilesSpawner._nvidia_args DockerProfilesSpawner.ProbeOutcome.urlError =
      Except.ok DockerProfilesSpawner.NvidiaEnrichment.empty ∧
    DockerProfilesSpawner._nvidia_args
        (DockerProfilesSpawner.ProbeOutcome.response none) =
      Except.error PyErr.valueError ∧
    DockerProfilesSpawner._nvidia_args
        (DockerProfilesSpawner.ProbeOutcome.response (some respMissingVolumes)) =
      Except.error PyErr.keyError ∧
    DockerProfilesSpawner._nvidia_args
        (DockerProfilesSpawner.ProbeOutcome.response (some respFull)) =
      Except.ok (DockerProfilesSpawner.NvidiaEnrichment.args
        [("/usr/local/nvidia", "/usr/local/nvidia")] "nvidia-docker"
        ["/dev/nvidia0"]) :=
  ⟨rfl, rfl, rfl, rfl⟩
